import Mathlib

/-!
Shallow embedding of `app.py` (GSC → PostgreSQL sync service).

The pipeline is authenticate → paginate-fetch → upsert-load, behind one HTTP
trigger endpoint.  External collaborators (the Google Search Console API, the
psycopg2 connection/cursor, the Flask request object, the system clock) are
modelled as explicit inputs: the API as the list of its successive page
responses, the database as a behaviour record telling how connect, each
executed statement, and commit turn out, and the clock/date as an integer day
count.  Database side effects are recorded as an event trace so that theorems
can talk about which statements were executed, and whether commit, rollback
and close happened.
-/

/-- `ROW_LIMIT_PER_REQUEST = 5000` from app.py. -/
def ROW_LIMIT_PER_REQUEST : Nat := 5000

/-- `GSC_SITE_URL` from app.py. -/
def GSC_SITE_URL : String := "https://www.feirasderua.com.br/"

/-- Does `pat` occur at the start of `l`?  (Helper for Python's `in`.) -/
def charListPrefixEq : List Char → List Char → Bool
  | [], _ => true
  | _ :: _, [] => false
  | a :: as, b :: bs => a == b && charListPrefixEq as bs

/-- Does `pat` occur anywhere inside `l`?  (Helper for Python's `in`.) -/
def charListFind (pat : List Char) : List Char → Bool
  | [] => charListPrefixEq pat []
  | b :: bs => charListPrefixEq pat (b :: bs) || charListFind pat bs

/-- Python's substring test `pat in s`. -/
def strContainsSub (s pat : String) : Bool :=
  charListFind pat.data s.data

/-- One Search Analytics row as returned by the API (`response['rows'][i]`):
a list of dimension key strings plus the four metric fields, each of which may
be absent (`row.get` with a default). -/
structure AnalyticsRow where
  keys : List String
  clicks : Option Int
  impressions : Option Int
  ctr : Option Rat
  position : Option Rat
deriving DecidableEq

/-- Outcome of one `service.searchanalytics().query(...).execute()` call:
either the rows of the page, or an `HttpError`, or any other exception
(with the exception's text). -/
inductive PageResult where
  | ok (rows : List AnalyticsRow)
  | httpError (msg : String)
  | otherError (msg : String)
deriving DecidableEq

/-- Is this page response an exception? -/
def PageResult.isError : PageResult → Bool
  | .ok _ => false
  | .httpError _ => true
  | .otherError _ => true

/-- The error message `fetch_gsc_data` builds for a failing page response
(`f"❌ ERRO API GSC: {e}"` resp. `f"❌ ERRO inesperado fetch GSC: {e}"`). -/
def PageResult.errorText : PageResult → String
  | .ok _ => ""
  | .httpError m => "❌ ERRO API GSC: " ++ m
  | .otherError m => "❌ ERRO inesperado fetch GSC: " ++ m

/-- The `while True` loop of `fetch_gsc_data`.  Requests are strictly
sequential with `start_row` advancing by the page size, so the API is
modelled as the list of its successive responses; the response to a request
past the end of that list would be an empty page, which the loop never asks
for because running out of `pages` only happens after a full page, and the
code then breaks only on the next (empty) response — hence `[]` returns the
accumulator, exactly as an empty page does.  `Except.error msg` stands for
the Python return value `(None, msg)`, `Except.ok rows` for `(rows, None)`. -/
def fetchGo (limit : Nat) : List PageResult → List AnalyticsRow → Except String (List AnalyticsRow)
  | [], acc => Except.ok acc
  | p :: rest, acc =>
    match p with
    | .httpError m => Except.error ("❌ ERRO API GSC: " ++ m)
    | .otherError m => Except.error ("❌ ERRO inesperado fetch GSC: " ++ m)
    | .ok rows =>
      if rows = [] then Except.ok acc
      else if rows.length < limit then Except.ok (acc ++ rows)
      else fetchGo limit rest (acc ++ rows)

/-- `fetch_gsc_data(service, site_url, start, end)` from app.py, with the
service's successive page responses as input. -/
def fetch_gsc_data (pages : List PageResult) : Except String (List AnalyticsRow) :=
  fetchGo ROW_LIMIT_PER_REQUEST pages []

example : fetch_gsc_data [PageResult.ok []] = Except.ok [] := rfl
example :
    fetch_gsc_data [PageResult.httpError "quota"] =
      Except.error "❌ ERRO API GSC: quota" := rfl

/-- The exact text of `upsert_sql` from `load_data_to_postgres`. -/
def upsert_sql : String :=
  "\n    INSERT INTO gsc_desempenho (data, site_url, page, query, device, search_type, clicks, impressions, ctr, position)\n    VALUES (%s, %s, %s, %s, %s, %s, %s, %s, %s, %s)\n    ON CONFLICT (data, site_url, page, query, device, search_type) DO UPDATE SET\n        clicks = EXCLUDED.clicks, impressions = EXCLUDED.impressions, ctr = EXCLUDED.ctr,\n        position = EXCLUDED.position, data_extracao = CURRENT_TIMESTAMP;\n    "

/-- `(keys + [None]*4)[:4]` — the four-way unpacking pad from the loader. -/
def padKeys (keys : List String) : List (Option String) :=
  (keys.map some ++ [none, none, none, none]).take 4

/-- Python's `x or default` on an optional string: `None` and `""` are falsy. -/
def pyOr (x : Option String) (default : String) : String :=
  match x with
  | none => default
  | some s => if s = "" then default else s

/-- Python's `str.upper()` on the device strings the API emits, as the
character-wise ASCII uppercase map. -/
def strToUpper (s : String) : String :=
  ⟨s.data.map Char.toUpper⟩

/-- `device_raw.upper() if device_raw else 'UNKNOWN'` from the loader. -/
def normDevice (device_raw : Option String) : String :=
  match device_raw with
  | none => "UNKNOWN"
  | some s => if s = "" then "UNKNOWN" else strToUpper s

/-- The parameter tuple `values` bound to `upsert_sql`'s placeholders. -/
structure UpsertValues where
  data : Option String
  site_url : String
  page : String
  query : String
  device : String
  search_type : String
  clicks : Int
  impressions : Int
  ctr : Rat
  position : Rat
deriving DecidableEq

/-- The per-row computation of the loader's `for` body: key padding,
`N/A`/`UNKNOWN` defaults, device uppercasing, constant search type, and
metric defaults via `row.get(..., 0)`. -/
def rowValues (site_url_prop : String) (row : AnalyticsRow) : UpsertValues :=
  let padded := padKeys row.keys
  { data := padded.getD 0 none
    site_url := site_url_prop
    page := pyOr (padded.getD 1 none) "N/A"
    query := pyOr (padded.getD 2 none) "N/A"
    device := normDevice (padded.getD 3 none)
    search_type := "WEB"
    clicks := row.clicks.getD 0
    impressions := row.impressions.getD 0
    ctr := row.ctr.getD 0
    position := row.position.getD 0 }

/-- Observable database actions of the loader, in order of occurrence. -/
inductive DBEvent where
  | connect
  | execute (v : UpsertValues)
  | commit
  | rollback
  | closeCursor
  | closeConn
deriving DecidableEq

/-- How the database behaves during one loader run: whether
`psycopg2.connect` raises (`some` exception text), how the `i`-th executed
statement turns out (error, or its `cur.statusmessage`), and whether
`conn.commit()` raises. -/
structure DBBehavior where
  connectResult : Option String
  execResult : Nat → Except String String
  commitResult : Option String

/-- The `if cur.statusmessage == \x22INSERT 0 1\x22 ... elif \x22UPDATE 1\x22 in
cur.statusmessage` counter update on one (inserted, updated) pair. -/
def stepCounts (status : String) (c : Nat × Nat) : Nat × Nat :=
  if status = "INSERT 0 1" then (c.1 + 1, c.2)
  else if strContainsSub status "UPDATE 1" then (c.1, c.2 + 1)
  else c

/-- What the loader's row loop produced: counters, the exception it raised
(if any), and the event trace so far. -/
structure LoopOut where
  ins : Nat
  upd : Nat
  err : Option String
  evs : List DBEvent
deriving DecidableEq

/-- The `for row in data_rows` loop of `load_data_to_postgres`: executes the
upsert for each row, classifies the status message, and stops at the first
statement that raises. `idx` counts previously executed statements. -/
def loadLoop (db : DBBehavior) (site : String) :
    List AnalyticsRow → Nat → Nat → Nat → List DBEvent → LoopOut
  | [], _, ins, upd, evs => ⟨ins, upd, none, evs⟩
  | row :: rest, idx, ins, upd, evs =>
    let v := rowValues site row
    match db.execResult idx with
    | Except.error e => ⟨ins, upd, some e, evs ++ [DBEvent.execute v]⟩
    | Except.ok status =>
      let c := stepCounts status (ins, upd)
      loadLoop db site rest (idx + 1) c.1 c.2 (evs ++ [DBEvent.execute v])

/-- What `load_data_to_postgres` returns — the Python triple
`(inserted_count, updated_count, message)` — plus the database event trace. -/
structure LoadResult where
  inserted : Nat
  updated : Nat
  message : String
  events : List DBEvent
deriving DecidableEq

/-- `load_data_to_postgres(db_url, data_rows, site_url_prop)` from app.py.

Control flow mirrored from the source: empty input returns early before the
`try` block; a falsy `db_url` raises `ValueError` before `psycopg2.connect`,
caught by the generic handler with `conn` still `None` (so no rollback and
nothing to close); a raising connect leaves `conn = None` likewise; an
exception inside the row loop is caught, rolled back and the counters
accumulated so far are returned; otherwise one commit ends the run.  The
`finally` block closes cursor and connection whenever `conn` was acquired. -/
def load_data_to_postgres (db : DBBehavior) (db_url : Option String)
    (data_rows : List AnalyticsRow) (site_url_prop : String) : LoadResult :=
  if data_rows.isEmpty then ⟨0, 0, "Nenhum dado para carregar.", []⟩
  else if (db_url.getD "") = "" then
    ⟨0, 0, "❌ ERRO PostgreSQL: DATABASE_URL não está configurada.", []⟩
  else
    match db.connectResult with
    | some e => ⟨0, 0, "❌ ERRO PostgreSQL: " ++ e, [DBEvent.connect]⟩
    | none =>
      let out := loadLoop db site_url_prop data_rows 0 0 0 [DBEvent.connect]
      match out.err with
      | some e =>
        ⟨out.ins, out.upd, "❌ ERRO PostgreSQL: " ++ e,
          out.evs ++ [DBEvent.rollback, DBEvent.closeCursor, DBEvent.closeConn]⟩
      | none =>
        match db.commitResult with
        | some e =>
          ⟨out.ins, out.upd, "❌ ERRO PostgreSQL: " ++ e,
            out.evs ++ [DBEvent.rollback, DBEvent.closeCursor, DBEvent.closeConn]⟩
        | none =>
          ⟨out.ins, out.upd,
            "Carregamento concluído! Inseridas: " ++ toString out.ins ++
              ", Atualizadas: " ++ toString out.upd,
            out.evs ++ [DBEvent.commit, DBEvent.closeCursor, DBEvent.closeConn]⟩

/-- Digit value of an ASCII digit character. -/
def digitVal (c : Char) : Option Nat :=
  if c.isDigit then some (c.toNat - 48) else none

/-- Continuation of Python `int()` digit parsing after the first digit:
further digits, with single underscores allowed only between digits. -/
def parseDigitsAux : Nat → List Char → Option Nat
  | acc, [] => some acc
  | acc, c :: cs =>
    if c = '_' then
      match cs with
      | [] => none
      | d :: ds =>
        match digitVal d with
        | some v => parseDigitsAux (acc * 10 + v) ds
        | none => none
    else
      match digitVal c with
      | some v => parseDigitsAux (acc * 10 + v) cs
      | none => none

/-- A nonempty digit string (with Python's underscore grouping) to its value. -/
def parseDigits : List Char → Option Nat
  | [] => none
  | c :: cs =>
    match digitVal c with
    | some v => parseDigitsAux v cs
    | none => none

/-- Strip leading and trailing whitespace from a character list. -/
def stripWs (l : List Char) : List Char :=
  ((l.dropWhile Char.isWhitespace).reverse.dropWhile Char.isWhitespace).reverse

/-- Python's `int(s)` on a string: optional surrounding whitespace, optional
single sign, then a nonempty digit run with underscore grouping; `none`
models the `ValueError` that a non-parseable string raises. -/
def pyParseInt (s : String) : Option Int :=
  match stripWs s.data with
  | '+' :: rest => (parseDigits rest).map Int.ofNat
  | '-' :: rest => (parseDigits rest).map (fun n => -(Int.ofNat n : Int))
  | l => (parseDigits l).map Int.ofNat

/-- `int(request.args.get('days', '2'))` guarded by
`except ValueError: days_param = 2` from the trigger handler. -/
def parseDaysParam (daysArg : Option String) : Int :=
  match pyParseInt (daysArg.getD "2") with
  | some n => n
  | none => 2

example : parseDaysParam none = 2 := rfl
example : parseDaysParam (some "7") = 7 := rfl
example : parseDaysParam (some "abc") = 2 := rfl
example : parseDaysParam (some " -3 ") = -3 := rfl
example : parseDaysParam (some "1_0") = 10 := rfl
example : parseDaysParam (some "") = 2 := rfl

/-- `target_date.strftime('%Y-%m-%d')`, with dates modelled as integer day
counts: an injective rendering of the day stands in for calendar
formatting, whose arithmetic the handler never inspects. -/
def formatDate (day : Int) : String :=
  toString day

/-- Everything outside world that one `/trigger-gsc-sync` request sees:
the `DATABASE_URL` environment variable, the raw `days` query parameter,
today's date as a day count, the outcome of `authenticate_gsc`, the API's
page responses, and the database behaviour. -/
structure TriggerEnv where
  database_url : Option String
  daysArg : Option String
  today : Int
  auth : Except String Unit
  pages : List PageResult
  db : DBBehavior

/-- The JSON reply of the trigger endpoint (status code, `status` field,
`message` field), plus — for the theorems — the `(start_date_str,
end_date_str)` pair that was passed to `fetch_gsc_data`, when the handler
got that far. -/
structure TriggerResponse where
  statusCode : Nat
  status : String
  message : String
  fetchedRange : Option (String × String)
deriving DecidableEq

/-- `trigger_gsc_sync()` from app.py: check `DATABASE_URL`, parse `days`
(default 2, also on `ValueError`), authenticate, compute
`target_date = today - timedelta(days=days_param)`, fetch with
`start = end = target_date`, load, and translate the loader message into the
response (`"ERRO" in load_message` selects the 500 branch). -/
def trigger_gsc_sync (env : TriggerEnv) : TriggerResponse :=
  if (env.database_url.getD "") = "" then
    ⟨500, "error", "DATABASE_URL not configured", none⟩
  else
    let days_param := parseDaysParam env.daysArg
    match env.auth with
    | Except.error e =>
      ⟨500, "error", "GSC Authentication Failed: " ++ e, none⟩
    | Except.ok _ =>
      let target_date := env.today - days_param
      let start_date_str := formatDate target_date
      let end_date_str := formatDate target_date
      match fetch_gsc_data env.pages with
      | Except.error fe =>
        ⟨500, "error", "GSC Fetch Failed: " ++ fe, some (start_date_str, end_date_str)⟩
      | Except.ok rows =>
        let r := load_data_to_postgres env.db env.database_url rows GSC_SITE_URL
        if strContainsSub r.message "ERRO" then
          ⟨500, "error", "PostgreSQL Load Failed: " ++ r.message,
            some (start_date_str, end_date_str)⟩
        else
          ⟨200, "success", r.message, some (start_date_str, end_date_str)⟩

/-- The composite conflict key of `upsert_sql`:
`(data, site_url, page, query, device, search_type)`. -/
structure RecordKey where
  data : Option String
  site_url : String
  page : String
  query : String
  device : String
  search_type : String
deriving DecidableEq

/-- One row of the `gsc_desempenho` table: the composite key, the metric
columns, and the `data_extracao` timestamp (an abstract clock reading). -/
structure StoredRecord where
  key : RecordKey
  clicks : Int
  impressions : Int
  ctr : Rat
  position : Rat
  data_extracao : Nat
deriving DecidableEq

/-- The conflict key of a bound parameter tuple. -/
def keyOf (v : UpsertValues) : RecordKey :=
  ⟨v.data, v.site_url, v.page, v.query, v.device, v.search_type⟩

/-- Modelled from the spec: the meaning of executing `upsert_sql` against a
table state at clock reading `now`.  The conflict branch is read off the
statement's `DO UPDATE SET` clause, which overwrites clicks, impressions,
ctr, position and sets `data_extracao = CURRENT_TIMESTAMP`.  The insert
branch's `data_extracao` is not in the statement's column list — its value
comes from the table default, and the table definition is not part of this
repository; the spec states the load timestamp is "set to current time on
every upsert", so the default is modelled as the current clock reading. -/
def upsertRecord (now : Nat) (store : List StoredRecord) (v : UpsertValues) :
    List StoredRecord :=
  if store.any (fun r => r.key = keyOf v) then
    store.map (fun r =>
      if r.key = keyOf v then ⟨r.key, v.clicks, v.impressions, v.ctr, v.position, now⟩
      else r)
  else
    store ++ [⟨keyOf v, v.clicks, v.impressions, v.ctr, v.position, now⟩]

/-- A concrete API row used to instantiate theorems on concrete inputs. -/
def sampleRow : AnalyticsRow :=
  ⟨["2024-01-01", "https://www.feirasderua.com.br/x", "feira", "mobile"],
    some 1, some 10, some 0, some 0⟩

/-! ## Lemmas about the fetch loop -/

lemma fetchGo_full (limit : Nat) (hpos : 0 < limit) (p : List AnalyticsRow)
    (hp : p.length = limit) (rest : List PageResult) (acc : List AnalyticsRow) :
    fetchGo limit (PageResult.ok p :: rest) acc = fetchGo limit rest (acc ++ p) := by
  have hne : p ≠ [] := by
    intro h
    rw [h] at hp
    simp at hp
    omega
  simp [fetchGo, hne, hp]

lemma fetchGo_short (limit : Nat) (p : List AnalyticsRow) (hp : p.length < limit)
    (rest : List PageResult) (acc : List AnalyticsRow) :
    fetchGo limit (PageResult.ok p :: rest) acc = Except.ok (acc ++ p) := by
  by_cases hne : p = []
  · subst hne
    simp [fetchGo]
  · simp [fetchGo, hne, hp]

lemma fetchGo_error_after_full (limit : Nat) (hpos : 0 < limit) :
    ∀ ps : List (List AnalyticsRow), (∀ p ∈ ps, p.length = limit) →
      ∀ bad : PageResult, bad.isError = true →
        ∀ (rest : List PageResult) (acc : List AnalyticsRow),
          fetchGo limit (ps.map PageResult.ok ++ bad :: rest) acc =
            Except.error bad.errorText := by
  intro ps
  induction ps with
  | nil =>
    intro _ bad hbad rest acc
    cases bad with
    | ok rows => simp [PageResult.isError] at hbad
    | httpError m => simp [fetchGo, PageResult.errorText]
    | otherError m => simp [fetchGo, PageResult.errorText]
  | cons p ps ih =>
    intro hfull bad hbad rest acc
    have hp : p.length = limit := hfull p (by simp)
    rw [List.map_cons, List.cons_append, fetchGo_full limit hpos p hp]
    exact ih (fun x hx => hfull x (by simp [hx])) bad hbad rest (acc ++ p)

/-- C1: fetch_gsc_data accumulates pages in request order and stops exactly
when a page has fewer rows than the fixed page size or zero rows: pages of
sizes [P, P, P, k] with k < P give a successful result of exactly 3P+k rows
in page order, and a first page of size < P (an empty first page included)
ends pagination after that one request, whatever responses would follow. -/
theorem fetch_pagination_three_full_then_short
    (p1 p2 p3 p4 q : List AnalyticsRow) (rest rest' : List PageResult)
    (h1 : p1.length = ROW_LIMIT_PER_REQUEST)
    (h2 : p2.length = ROW_LIMIT_PER_REQUEST)
    (h3 : p3.length = ROW_LIMIT_PER_REQUEST)
    (h4 : p4.length < ROW_LIMIT_PER_REQUEST)
    (hq : q.length < ROW_LIMIT_PER_REQUEST) :
    fetch_gsc_data (PageResult.ok p1 :: PageResult.ok p2 :: PageResult.ok p3 ::
        PageResult.ok p4 :: rest) = Except.ok (p1 ++ p2 ++ p3 ++ p4)
      ∧ (p1 ++ p2 ++ p3 ++ p4).length = 3 * ROW_LIMIT_PER_REQUEST + p4.length
      ∧ fetch_gsc_data (PageResult.ok q :: rest') = Except.ok q := by
  have hpos : 0 < ROW_LIMIT_PER_REQUEST := by norm_num [ROW_LIMIT_PER_REQUEST]
  refine ⟨?_, ?_, ?_⟩
  · unfold fetch_gsc_data
    rw [fetchGo_full _ hpos _ h1, fetchGo_full _ hpos _ h2, fetchGo_full _ hpos _ h3,
        fetchGo_short _ _ h4]
    simp [List.append_assoc]
  · simp [List.length_append, h1, h2, h3]
    ring
  · unfold fetch_gsc_data
    rw [fetchGo_short _ _ hq]
    simp

/-- Witness for C1 at a concrete input: three full pages of 5000 copies of
`sampleRow` followed by a one-row page. -/
theorem fetch_pagination_three_full_then_short_witness :
    fetch_gsc_data (PageResult.ok (List.replicate 5000 sampleRow) ::
        PageResult.ok (List.replicate 5000 sampleRow) ::
        PageResult.ok (List.replicate 5000 sampleRow) ::
        PageResult.ok [sampleRow] :: []) =
      Except.ok (List.replicate 5000 sampleRow ++ List.replicate 5000 sampleRow ++
        List.replicate 5000 sampleRow ++ [sampleRow]) :=
  (fetch_pagination_three_full_then_short
    (List.replicate 5000 sampleRow) (List.replicate 5000 sampleRow)
    (List.replicate 5000 sampleRow) [sampleRow] [sampleRow] [] []
    (by rw [List.length_replicate]; rfl) (by rw [List.length_replicate]; rfl)
    (by rw [List.length_replicate]; rfl) (by decide)
    (by decide)).1

/-- C3: an API or transport error on any page makes the whole fetch fail —
the result is the error value with the page's error text, carrying no rows,
so no previously accumulated page leaks out to the caller. -/
theorem fetch_error_aborts_all (ps : List (List AnalyticsRow))
    (bad : PageResult) (rest : List PageResult)
    (hfull : ∀ p ∈ ps, p.length = ROW_LIMIT_PER_REQUEST)
    (hbad : bad.isError = true) :
    fetch_gsc_data (ps.map PageResult.ok ++ bad :: rest) =
        Except.error bad.errorText
      ∧ ∀ rows, fetch_gsc_data (ps.map PageResult.ok ++ bad :: rest) ≠ Except.ok rows := by
  have h := fetchGo_error_after_full ROW_LIMIT_PER_REQUEST
    (by norm_num [ROW_LIMIT_PER_REQUEST]) ps hfull bad hbad rest []
  refine ⟨h, ?_⟩
  intro rows hcontra
  rw [fetch_gsc_data] at hcontra
  rw [h] at hcontra
  exact Except.noConfusion hcontra

/-! ## Lemmas about the loader loop -/

/-- Counter state after the first `j` executed statements, whose statuses
come from `db.execResult` starting at statement index `idx`. -/
def accumCounts (db : DBBehavior) : Nat → Nat → Nat × Nat → Nat × Nat
  | _, 0, c => c
  | idx, j + 1, c =>
    match db.execResult idx with
    | Except.ok s => accumCounts db (idx + 1) j (stepCounts s c)
    | Except.error _ => accumCounts db (idx + 1) j c

lemma loadLoop_error_eq (db : DBBehavior) (site : String) :
    ∀ (rows : List AnalyticsRow) (j idx ins upd : Nat) (evs : List DBEvent) (e : String),
      j < rows.length →
      db.execResult (idx + j) = Except.error e →
      (∀ i, i < j → ∃ s, db.execResult (idx + i) = Except.ok s) →
      loadLoop db site rows idx ins upd evs =
        ⟨(accumCounts db idx j (ins, upd)).1, (accumCounts db idx j (ins, upd)).2, some e,
          evs ++ (rows.take (j + 1)).map (fun row => DBEvent.execute (rowValues site row))⟩ := by
  intro rows
  induction rows with
  | nil =>
    intro j idx ins upd evs e hj
    simp at hj
  | cons row rest ih =>
    intro j idx ins upd evs e hj he hok
    cases j with
    | zero =>
      rw [Nat.add_zero] at he
      simp [loadLoop, he, accumCounts]
    | succ j' =>
      obtain ⟨s, hs⟩ := hok 0 (Nat.succ_pos j')
      rw [Nat.add_zero] at hs
      have he' : db.execResult ((idx + 1) + j') = Except.error e := by
        rw [show (idx + 1) + j' = idx + (j' + 1) by omega]
        exact he
      have hok' : ∀ i, i < j' → ∃ s, db.execResult ((idx + 1) + i) = Except.ok s := by
        intro i hi
        have h := hok (i + 1) (by omega)
        rw [show idx + (i + 1) = (idx + 1) + i by omega] at h
        exact h
      have hj' : j' < rest.length := by
        simp [List.length_cons] at hj
        omega
      simp only [loadLoop, hs]
      rw [ih j' (idx + 1) _ _ _ e hj' he' hok']
      simp [accumCounts, hs, List.take_succ_cons]

lemma loadLoop_counts_le (db : DBBehavior) (site : String) :
    ∀ (rows : List AnalyticsRow) (idx ins upd : Nat) (evs : List DBEvent),
      (loadLoop db site rows idx ins upd evs).ins +
          (loadLoop db site rows idx ins upd evs).upd ≤ ins + upd + rows.length := by
  intro rows
  induction rows with
  | nil =>
    intro idx ins upd evs
    simp [loadLoop]
  | cons row rest ih =>
    intro idx ins upd evs
    cases hx : db.execResult idx with
    | error e =>
      simp [loadLoop, hx, List.length_cons]
    | ok s =>
      have hstep : (stepCounts s (ins, upd)).1 + (stepCounts s (ins, upd)).2 ≤ ins + upd + 1 := by
        unfold stepCounts
        split
        · simp
          omega
        · split
          · simp
            omega
          · simp
      have h1 := ih (idx + 1) (stepCounts s (ins, upd)).1 (stepCounts s (ins, upd)).2
        (evs ++ [DBEvent.execute (rowValues site row)])
      simp only [loadLoop, hx, List.length_cons]
      omega

/-- A database behaviour where connect and commit succeed and every
statement reports a fresh insert. -/
def noopDB : DBBehavior :=
  ⟨none, fun _ => Except.ok "INSERT 0 1", none⟩

/-- A database behaviour whose second statement raises. -/
def failSecondDB : DBBehavior :=
  ⟨none, fun i => if i = 0 then Except.ok "INSERT 0 1" else Except.error "deadlock detected", none⟩

/-- Witness for C3 at a concrete input: an HTTP error on page 3 after two
full pages. -/
theorem fetch_error_aborts_all_witness :
    fetch_gsc_data
        ([List.replicate 5000 sampleRow, List.replicate 5000 sampleRow].map PageResult.ok ++
          PageResult.httpError "quota exceeded" :: []) =
      Except.error ((PageResult.httpError "quota exceeded").errorText) :=
  (fetch_error_aborts_all
    [List.replicate 5000 sampleRow, List.replicate 5000 sampleRow]
    (PageResult.httpError "quota exceeded") []
    (by
      intro p hp
      rcases List.mem_cons.mp hp with rfl | hp2
      · rw [List.length_replicate]
        rfl
      · rcases List.mem_cons.mp hp2 with rfl | hp3
        · rw [List.length_replicate]
          rfl
        · exact absurd hp3 (List.not_mem_nil p))
    rfl).1

/-- C9: on the empty input sequence the loader returns counts (0, 0) and the
no-data message, with an empty event trace — no connection is opened and no
statement is executed. -/
theorem load_empty_no_touch (db : DBBehavior) (url : Option String) (site : String) :
    load_data_to_postgres db url [] site = ⟨0, 0, "Nenhum dado para carregar.", []⟩ := rfl

/-- C6 (amended): on a non-empty input sequence, a missing (unset or empty)
connection string makes the loader fail with the configuration error message
before any connection attempt, with zero rows processed — the event trace is
empty.  (On the empty input sequence, the no-data early return fires first;
see the counterexample.) -/
theorem load_missing_dburl (db : DBBehavior) (url : Option String)
    (rows : List AnalyticsRow) (site : String)
    (hrows : rows ≠ [])
    (hurl : url.getD "" = "") :
    load_data_to_postgres db url rows site =
      ⟨0, 0, "❌ ERRO PostgreSQL: DATABASE_URL não está configurada.", []⟩ := by
  have hne : rows.isEmpty = false := by
    cases rows with
    | nil => exact absurd rfl hrows
    | cons a l => rfl
  simp [load_data_to_postgres, hne, hurl]

/-- Witness for C6 (amended) at a concrete input: one row, `DATABASE_URL`
unset. -/
theorem load_missing_dburl_witness :
    load_data_to_postgres noopDB none [sampleRow] GSC_SITE_URL =
      ⟨0, 0, "❌ ERRO PostgreSQL: DATABASE_URL não está configurada.", []⟩ :=
  load_missing_dburl noopDB none [sampleRow] GSC_SITE_URL (List.cons_ne_nil _ _) rfl

/-- Counterexample to C6 as stated: invoked with the connection string unset
but an empty input sequence, the loader hits the no-data early return first
and reports success, not a configuration error. -/
theorem load_missing_dburl_counterexample :
    (load_data_to_postgres noopDB none [] GSC_SITE_URL).message =
        "Nenhum dado para carregar."
      ∧ (load_data_to_postgres noopDB none [] GSC_SITE_URL).message ≠
          "❌ ERRO PostgreSQL: DATABASE_URL não está configurada." :=
  ⟨rfl, by decide⟩

/-- C4: a statement error at row `j` (all earlier statements having
succeeded) stops the loop — exactly `j + 1` upserts were executed, the
remaining rows are untouched — rolls the transaction back without ever
committing, and returns the counts accumulated from the first `j` statuses
together with the wrapped error message. -/
theorem load_error_rolls_back (db : DBBehavior) (url : Option String)
    (rows : List AnalyticsRow) (site : String) (j : Nat) (e : String)
    (hurl : url.getD "" ≠ "")
    (hconn : db.connectResult = none)
    (hj : j < rows.length)
    (he : db.execResult j = Except.error e)
    (hok : ∀ i, i < j → ∃ s, db.execResult i = Except.ok s) :
    (load_data_to_postgres db url rows site).message = "❌ ERRO PostgreSQL: " ++ e
      ∧ (load_data_to_postgres db url rows site).events =
          DBEvent.connect ::
            ((rows.take (j + 1)).map (fun row => DBEvent.execute (rowValues site row)) ++
              [DBEvent.rollback, DBEvent.closeCursor, DBEvent.closeConn])
      ∧ DBEvent.commit ∉ (load_data_to_postgres db url rows site).events
      ∧ ((load_data_to_postgres db url rows site).inserted,
            (load_data_to_postgres db url rows site).updated) = accumCounts db 0 j (0, 0) := by
  have hne : rows.isEmpty = false := by
    cases rows with
    | nil => simp at hj
    | cons a l => rfl
  have hloop := loadLoop_error_eq db site rows j 0 0 0 [DBEvent.connect] e hj
    (by rw [Nat.zero_add]; exact he)
    (by
      intro i hi
      rw [Nat.zero_add]
      exact hok i hi)
  have hmain : load_data_to_postgres db url rows site =
      ⟨(accumCounts db 0 j (0, 0)).1, (accumCounts db 0 j (0, 0)).2,
        "❌ ERRO PostgreSQL: " ++ e,
        DBEvent.connect ::
          ((rows.take (j + 1)).map (fun row => DBEvent.execute (rowValues site row)) ++
            [DBEvent.rollback, DBEvent.closeCursor, DBEvent.closeConn])⟩ := by
    simp [load_data_to_postgres, hne, hurl, hconn, hloop]
  refine ⟨by rw [hmain], by rw [hmain], ?_, by rw [hmain]⟩
  rw [hmain]
  intro hmem
  rcases List.mem_cons.mp hmem with h | h
  · exact DBEvent.noConfusion h
  · rcases List.mem_append.mp h with h2 | h2
    · obtain ⟨row, _, hrow⟩ := List.mem_map.mp h2
      exact DBEvent.noConfusion hrow
    · rcases List.mem_cons.mp h2 with h3 | h3
      · exact DBEvent.noConfusion h3
      · rcases List.mem_cons.mp h3 with h4 | h4
        · exact DBEvent.noConfusion h4
        · rcases List.mem_cons.mp h4 with h5 | h5
          · exact DBEvent.noConfusion h5
          · exact absurd h5 (List.not_mem_nil _)

/-- Witness for C4 at a concrete input: two rows, the second statement
raises. -/
theorem load_error_rolls_back_witness :
    (load_data_to_postgres failSecondDB (some "postgres://user") [sampleRow, sampleRow]
          GSC_SITE_URL).message = "❌ ERRO PostgreSQL: deadlock detected"
      ∧ DBEvent.commit ∉
          (load_data_to_postgres failSecondDB (some "postgres://user") [sampleRow, sampleRow]
            GSC_SITE_URL).events
      ∧ ((load_data_to_postgres failSecondDB (some "postgres://user") [sampleRow, sampleRow]
              GSC_SITE_URL).inserted,
          (load_data_to_postgres failSecondDB (some "postgres://user") [sampleRow, sampleRow]
              GSC_SITE_URL).updated) = accumCounts failSecondDB 0 1 (0, 0) := by
  have h := load_error_rolls_back failSecondDB (some "postgres://user") [sampleRow, sampleRow]
    GSC_SITE_URL 1 "deadlock detected"
    (by decide) rfl (by decide) rfl
    (by
      intro i hi
      refine ⟨"INSERT 0 1", ?_⟩
      rw [Nat.lt_one_iff.mp hi]
      rfl)
  exact ⟨h.1, h.2.2.1, h.2.2.2⟩

/-- C8: whenever a connection was acquired (connect succeeded and hence the
connect event is on the trace), the trace also records its release
(`conn.close()`), on every exit path of the loader. -/
theorem load_releases_connection (db : DBBehavior) (url : Option String)
    (rows : List AnalyticsRow) (site : String)
    (hconn : db.connectResult = none) :
    DBEvent.connect ∈ (load_data_to_postgres db url rows site).events →
      DBEvent.closeConn ∈ (load_data_to_postgres db url rows site).events := by
  intro hmem
  by_cases hemp : rows.isEmpty = true
  · simp [load_data_to_postgres, hemp] at hmem
  · by_cases hurl : (url.getD "") = ""
    · simp [load_data_to_postgres, hemp, hurl] at hmem
    · cases hout : (loadLoop db site rows 0 0 0 [DBEvent.connect]).err with
      | some e => simp [load_data_to_postgres, hemp, hurl, hconn, hout]
      | none =>
        cases hcommit : db.commitResult with
        | some e' => simp [load_data_to_postgres, hemp, hurl, hconn, hout, hcommit]
        | none => simp [load_data_to_postgres, hemp, hurl, hconn, hout, hcommit]

/-- Witness for C8 at a concrete input: one successfully loaded row. -/
theorem load_releases_connection_witness :
    DBEvent.closeConn ∈
      (load_data_to_postgres noopDB (some "postgres://user") [sampleRow] GSC_SITE_URL).events :=
  load_releases_connection noopDB (some "postgres://user") [sampleRow] GSC_SITE_URL rfl
    (by decide)

/-- C10: on every return path of the loader, each processed row has bumped
at most one of the two counters by one, so the returned insert and update
counts sum to at most the number of input rows (they are natural numbers,
hence nonnegative). -/
theorem load_counts_bounded (db : DBBehavior) (url : Option String)
    (rows : List AnalyticsRow) (site : String) :
    (load_data_to_postgres db url rows site).inserted +
        (load_data_to_postgres db url rows site).updated ≤ rows.length := by
  by_cases hemp : rows.isEmpty = true
  · simp [load_data_to_postgres, hemp]
  · by_cases hurl : (url.getD "") = ""
    · simp [load_data_to_postgres, hemp, hurl]
    · cases hconn : db.connectResult with
      | some e => simp [load_data_to_postgres, hemp, hurl, hconn]
      | none =>
        have h := loadLoop_counts_le db site rows 0 0 0 [DBEvent.connect]
        cases hout : (loadLoop db site rows 0 0 0 [DBEvent.connect]).err with
        | some e =>
          simp [load_data_to_postgres, hemp, hurl, hconn, hout]
          omega
        | none =>
          cases hcommit : db.commitResult with
          | some e' =>
            simp [load_data_to_postgres, hemp, hurl, hconn, hout, hcommit]
            omega
          | none =>
            simp [load_data_to_postgres, hemp, hurl, hconn, hout, hcommit]
            omega

/-- C5 (amended): for every row the loader processes, search type is the
constant "WEB"; a missing page or query key defaults to the sentinel "N/A";
a missing device key defaults to "UNKNOWN" and a present one is uppercased
(an empty one falls back to "UNKNOWN"); but the date key is passed through
unchanged — when it is absent the bound value is null (`none`), not a
sentinel string. -/
theorem rowValues_normalization (site : String) (row : AnalyticsRow) :
    (rowValues site row).search_type = "WEB"
      ∧ (rowValues site row).data = (padKeys row.keys).getD 0 none
      ∧ ((padKeys row.keys).getD 1 none = none → (rowValues site row).page = "N/A")
      ∧ ((padKeys row.keys).getD 2 none = none → (rowValues site row).query = "N/A")
      ∧ ((padKeys row.keys).getD 3 none = none → (rowValues site row).device = "UNKNOWN")
      ∧ (∀ s, (padKeys row.keys).getD 3 none = some s →
          (rowValues site row).device = (if s = "" then "UNKNOWN" else strToUpper s)) := by
  refine ⟨rfl, rfl, ?_, ?_, ?_, ?_⟩
  · intro h
    simp only [rowValues]
    rw [h]
    rfl
  · intro h
    simp only [rowValues]
    rw [h]
    rfl
  · intro h
    simp only [rowValues]
    rw [h]
    rfl
  · intro s h
    simp only [rowValues]
    rw [h]
    simp [normDevice]

/-- Witness for C5 (amended) at a concrete input: a row carrying only a date
key, so page, query and device are all missing. -/
theorem rowValues_normalization_witness :
    (rowValues GSC_SITE_URL ⟨["2024-01-01"], none, none, none, none⟩).page = "N/A"
      ∧ (rowValues GSC_SITE_URL ⟨["2024-01-01"], none, none, none, none⟩).query = "N/A"
      ∧ (rowValues GSC_SITE_URL ⟨["2024-01-01"], none, none, none, none⟩).device = "UNKNOWN"
      ∧ (rowValues GSC_SITE_URL sampleRow).device = "MOBILE" := by
  have h := rowValues_normalization GSC_SITE_URL ⟨["2024-01-01"], none, none, none, none⟩
  have h2 := rowValues_normalization GSC_SITE_URL sampleRow
  exact ⟨h.2.2.1 rfl, h.2.2.2.1 rfl, h.2.2.2.2.1 rfl,
    by
      rw [h2.2.2.2.2.2 "mobile" rfl]
      decide⟩

/-- Counterexample to C5 as stated: on a row with no dimension keys the date
value stays null (`none`) — it is not defaulted to any sentinel string, so
not every missing dimension value among the four extracted keys gets a
string default. -/
theorem rowValues_date_stays_null :
    (rowValues GSC_SITE_URL ⟨[], none, none, none, none⟩).data = none :=
  rfl

set_option maxRecDepth 4000 in
/-- C7: every upsert executed by the loader sets the `data_extracao`
timestamp column to the current clock reading, on the conflict-update path
for an existing key — this is the `data_extracao = CURRENT_TIMESTAMP`
assignment carried literally by `upsert_sql`'s `DO UPDATE SET` clause — as
well as on the first-insert path for a new key (whose timestamp comes from
the table default modelled in `upsertRecord`). -/
theorem upsert_sets_timestamp (now : Nat) (store : List StoredRecord)
    (v : UpsertValues) (r : StoredRecord)
    (hr : r ∈ upsertRecord now store v) (hk : r.key = keyOf v) :
    r.data_extracao = now
      ∧ strContainsSub upsert_sql "data_extracao = CURRENT_TIMESTAMP" = true := by
  refine ⟨?_, by decide⟩
  unfold upsertRecord at hr
  by_cases hc : store.any (fun x => x.key = keyOf v) = true
  · rw [if_pos hc] at hr
    obtain ⟨r0, hr0, heq⟩ := List.mem_map.mp hr
    by_cases hk0 : r0.key = keyOf v
    · rw [if_pos hk0] at heq
      rw [← heq]
    · rw [if_neg hk0] at heq
      exact absurd (heq ▸ hk) hk0
  · rw [if_neg hc] at hr
    rcases List.mem_append.mp hr with h | h
    · exact absurd (List.any_eq_true.mpr ⟨r, h, by simp [hk]⟩) hc
    · rw [List.mem_singleton.mp h]

/-- Parameter tuple of `sampleRow` as the loader would bind it. -/
def v0 : UpsertValues := rowValues GSC_SITE_URL sampleRow

/-- A pre-existing record under `v0`'s key, loaded at an earlier time. -/
def oldRec : StoredRecord := ⟨keyOf v0, 0, 0, 0, 0, 3⟩

/-- The record `v0`'s upsert leaves in the store at time 5. -/
def rec0 : StoredRecord := ⟨keyOf v0, v0.clicks, v0.impressions, v0.ctr, v0.position, 5⟩

set_option maxRecDepth 4000 in
/-- Witness for C7 at a concrete input: upserting `v0` over an existing
record updates its timestamp to the current clock reading 5. -/
theorem upsert_sets_timestamp_witness :
    rec0.data_extracao = 5
      ∧ strContainsSub upsert_sql "data_extracao = CURRENT_TIMESTAMP" = true :=
  upsert_sets_timestamp 5 [oldRec] v0 rec0 (by decide) (by decide)

/-- C2: the `days` query parameter defaults to 2 when absent and when not
parseable as an integer; in the non-parseable case the handler's whole
response is the one it gives with the parameter absent, so no error response
ever arises from that; and whenever the handler reaches the fetch, the start
and the end date it passes are both the rendering of `today - days`. -/
theorem trigger_days_default (env : TriggerEnv) :
    parseDaysParam none = 2
      ∧ (∀ s, pyParseInt s = none → parseDaysParam (some s) = 2)
      ∧ (∀ s, env.daysArg = some s → pyParseInt s = none →
          trigger_gsc_sync env = trigger_gsc_sync { env with daysArg := none })
      ∧ (∀ sd ed, (trigger_gsc_sync env).fetchedRange = some (sd, ed) →
          sd = formatDate (env.today - parseDaysParam env.daysArg) ∧ ed = sd) := by
  refine ⟨rfl, ?_, ?_, ?_⟩
  · intro s h
    simp [parseDaysParam, h]
  · intro s hs h
    have hd : parseDaysParam env.daysArg = parseDaysParam none := by
      rw [hs]
      simp [parseDaysParam, h]
      rfl
    simp only [trigger_gsc_sync, hd]
  · intro sd ed h
    by_cases hu : (env.database_url.getD "") = ""
    · simp [trigger_gsc_sync, hu] at h
    · cases ha : env.auth with
      | error e =>
        simp [trigger_gsc_sync, hu, ha] at h
      | ok u =>
        cases hf : fetch_gsc_data env.pages with
        | error fe =>
          simp [trigger_gsc_sync, hu, ha, hf] at h
          exact ⟨h.1.symm, h.2.symm.trans h.1⟩
        | ok rows =>
          by_cases hl : strContainsSub
              (load_data_to_postgres env.db env.database_url rows GSC_SITE_URL).message
              "ERRO" = true
          · simp [trigger_gsc_sync, hu, ha, hf, hl] at h
            exact ⟨h.1.symm, h.2.symm.trans h.1⟩
          · simp [trigger_gsc_sync, hu, ha, hf, hl] at h
            exact ⟨h.1.symm, h.2.symm.trans h.1⟩

/-- A concrete trigger environment with a non-parseable `days` parameter. -/
def env0 : TriggerEnv :=
  ⟨some "postgres://user", some "not a number", 100, Except.ok (), [], noopDB⟩

/-- Witness for C2 at a concrete input: `days="not a number"` behaves
exactly like an absent parameter, the value 2 is used, and the date range
passed to the fetch is today (day 100) minus 2, twice. -/
theorem trigger_days_default_witness :
    parseDaysParam (some "not a number") = 2
      ∧ trigger_gsc_sync env0 = trigger_gsc_sync { env0 with daysArg := none }
      ∧ "98" = formatDate (env0.today - parseDaysParam env0.daysArg) := by
  have h := trigger_days_default env0
  exact ⟨h.2.1 "not a number" rfl, h.2.2.1 "not a number" rfl rfl,
    (h.2.2.2 "98" "98" rfl).1⟩
